import Mathlib

/-
Verification development for the `servicios_sanitarios` module of the
Concierge repository (modules/servicios_sanitarios/src/utils.py and core.py).

The Python source is shallowly embedded: pure helpers become Lean functions,
and the stateful stage methods become explicit state-passing functions whose
external collaborators (network fetch, HTML scraping, PDF extraction, the
JSON state file on disk) are passed in as arguments.  The JSON state file is
modelled as an `Option` of a typed record: `none` is "file absent or
unreadable" (Python `cargar_json` returning `None`), `some d` is the parsed
content.  Writing the file replaces that state (the embedding assumes the
write itself succeeds; `guardar_json` only returns `False` on an OS error,
which is outside the model).

Note on names: this snapshot of the repository is mid-rename from Spanish to
English.  `core.py` imports `cargar_json`, `guardar_json`, `descargar_pdf`,
`extraer_empresas_agua`, `extraer_url_por_texto`, `verificar_redireccion_url`
from `.utils`, which defines the same functions under the English names
`load_json`, `save_json`, `download_pdf`, `extract_water_companies`,
`extract_url_by_text`, `check_url_redirection`.  The embedding treats the
Spanish names as aliases of those English-named definitions (the only reading
under which the module imports at all, and the one its tests use).
-/

/-! ### Value classifier (`utils._contains_number_or_price`)

The Python function runs `re.search(pattern, text, re.IGNORECASE)` over a
fixed list of patterns and returns `True` on the first hit.  Each pattern is
embedded as a direct scan over the character list; `re.search` semantics
(match anywhere in the string) become a scan that tries every start position.
All character classes in adjacent positions of these patterns are disjoint
(digits vs whitespace vs a literal), so the greedy no-backtracking scan is
equivalent to the regex engine's behaviour. -/

/-- Python `\s` whitespace class (ASCII part, which is all the pipeline ever
feeds it): space, tab, newline, carriage return, vertical tab, form feed. -/
def pyIsSpace (c : Char) : Bool :=
  c == ' ' || c == '\t' || c == '\n' || c == '\r' || c == '\x0b' || c == '\x0c'

/-- Pattern `\d+`: `re.search` succeeds iff some character is a digit. -/
def searchDigit (l : List Char) : Bool :=
  l.any Char.isDigit

/-- Matches `\s*\d` at the start of the list (used after `$`, and after a
comma for the thousands pattern): skip whitespace, then require a digit. -/
def wsThenDigit : List Char → Bool
  | [] => false
  | c :: cs => if c.isDigit then true else if pyIsSpace c then wsThenDigit cs else false

/-- Pattern `\$\s*\d+` (price with `$`), searched at every position. -/
def searchDollarNum : List Char → Bool
  | [] => false
  | c :: cs => (c == '$' && wsThenDigit cs) || searchDollarNum cs

/-- After the comma of `\d+\s*,\s*\d+`: `\s*\d`. After intervening
whitespace, only a comma can continue the match. -/
def wsComma : List Char → Bool
  | [] => false
  | c :: cs => if pyIsSpace c then wsComma cs else if c == ',' then wsThenDigit cs else false

/-- Matches `\d*\s*,\s*\d` at the start (the part of `\d+\s*,\s*\d+` after
its first digit). -/
def digitsWsComma : List Char → Bool
  | [] => false
  | c :: cs =>
    if c.isDigit then digitsWsComma cs
    else if pyIsSpace c then wsComma cs
    else if c == ',' then wsThenDigit cs
    else false

/-- Pattern `\d+\s*,\s*\d+` (thousands-grouped number). -/
def searchThousands : List Char → Bool
  | [] => false
  | c :: cs => (c.isDigit && digitsWsComma cs) || searchThousands cs

/-- Matches `\d*\.\d` at the start (the part of `\d+\.\d+` after its first
digit). -/
def digitsDotDigit : List Char → Bool
  | [] => false
  | c :: cs =>
    if c.isDigit then digitsDotDigit cs
    else if c == '.' then (match cs with | d :: _ => d.isDigit | [] => false)
    else false

/-- Pattern `\d+\.\d+` (decimal number). -/
def searchDecimal : List Char → Bool
  | [] => false
  | c :: cs => (c.isDigit && digitsDotDigit cs) || searchDecimal cs

/-- After the digits of `\d+\s*%`: `\s*%`. -/
def wsPercent : List Char → Bool
  | [] => false
  | c :: cs => if pyIsSpace c then wsPercent cs else c == '%'

/-- Matches `\d*\s*%` at the start (the part of `\d+\s*%` after its first
digit). -/
def digitsWsPercent : List Char → Bool
  | [] => false
  | c :: cs =>
    if c.isDigit then digitsWsPercent cs
    else if pyIsSpace c then wsPercent cs
    else c == '%'

/-- Pattern `\d+\s*%` (percentage). -/
def searchPercent : List Char → Bool
  | [] => false
  | c :: cs => (c.isDigit && digitsWsPercent cs) || searchPercent cs

/-- The alternation `(m3|m²|km|kg|lt|uf)` of the unit pattern, matched at the
start of the list under `re.IGNORECASE` (note the source has ASCII `m3` and
the Unicode superscript `m²`). -/
def unitAt : List Char → Bool
  | a :: b :: _ =>
    (a.toLower == 'm' && (b == '3' || b == '²')) ||
    (a.toLower == 'k' && (b.toLower == 'm' || b.toLower == 'g')) ||
    (a.toLower == 'l' && b.toLower == 't') ||
    (a.toLower == 'u' && b.toLower == 'f')
  | _ => false

/-- After optional whitespace, the unit alternation must match. -/
def wsUnit : List Char → Bool
  | [] => false
  | c :: cs => if pyIsSpace c then wsUnit cs else unitAt (c :: cs)

/-- Matches `\d*\s*(m3|m²|km|kg|lt|uf)` at the start (the part of the unit
pattern after its first digit). -/
def digitsWsUnit : List Char → Bool
  | [] => false
  | c :: cs =>
    if c.isDigit then digitsWsUnit cs
    else if pyIsSpace c then wsUnit cs
    else unitAt (c :: cs)

/-- Pattern `\d+\s*(m3|m²|km|kg|lt|uf)` (number with unit of measure). -/
def searchUnit : List Char → Bool
  | [] => false
  | c :: cs => (c.isDigit && digitsWsUnit cs) || searchUnit cs

/-- Pattern `(SI|NO|si|no)` under `re.IGNORECASE`: an unanchored search, so it
succeeds iff `si` or `no` occurs anywhere as a case-insensitive substring. -/
def searchSiNo : List Char → Bool
  | [] => false
  | [_] => false
  | a :: b :: cs =>
    ((a.toLower == 's' && b.toLower == 'i') || (a.toLower == 'n' && b.toLower == 'o')) ||
    searchSiNo (b :: cs)

/-- `utils._contains_number_or_price`: tries the seven patterns in source
order and returns `True` on the first `re.search` hit. -/
def containsNumberOrPrice (s : String) : Bool :=
  searchDigit s.data || searchDollarNum s.data || searchThousands s.data ||
  searchDecimal s.data || searchPercent s.data || searchUnit s.data || searchSiNo s.data

/-! ### Table structure parser (`utils.parse_table_structure`)

Raw table cells are `Any` in Python; a cell is modelled as `Option String`,
where `none` stands for a falsy cell (`None` or an empty value) and `some s`
for a value whose `str()` is `s`.  The row cleaning step
`str(cell).strip() if cell else ""` becomes `cleanCell`. -/

/-- A concept's value: `values[0]` when the row had exactly one value cell,
the whole value list otherwise (Python stores a `str` or a `list`). -/
inductive ConceptValueData where
  | single (s : String)
  | multiple (l : List String)
deriving DecidableEq, Repr

/-- One concept-value pair produced by the parser. -/
structure ConceptValue where
  concept : String
  value : ConceptValueData
  additional_values : List String
deriving DecidableEq, Repr

/-- A labeled section: header name plus its accumulated concept rows. -/
structure TableSection where
  section_name : String
  data : List ConceptValue
deriving DecidableEq, Repr

/-- The result record of `parse_table_structure`. -/
structure ParsedTable where
  type : String
  sections : List TableSection
  direct_data : List ConceptValue
  total_rows : Nat
  total_concepts : Nat
deriving DecidableEq, Repr

/-- `str(cell).strip() if cell else ""`. -/
def cleanCell : Option String → String
  | none => ""
  | some s => s.trim

/-- Loop state of `parse_table_structure`: sections closed so far, direct
data, the currently open section, and the concept counter. -/
structure ParseAcc where
  sections : List TableSection
  direct_data : List ConceptValue
  current : Option TableSection
  total_concepts : Nat
deriving DecidableEq, Repr

/-- Close the currently open section, if any (`sections.append(current_section)`). -/
def closeSection (sections : List TableSection) : Option TableSection → List TableSection
  | none => sections
  | some s => sections ++ [s]

/-- One iteration of the row loop of `parse_table_structure`. -/
def parseRow (acc : ParseAcc) (row : List (Option String)) : ParseAcc :=
  let nonEmpty := (row.map cleanCell).filter (fun c => c ≠ "")
  match nonEmpty with
  | [] => acc
  | [sectionName] =>
    { acc with
      sections := closeSection acc.sections acc.current
      current := some ⟨sectionName, []⟩ }
  | concept :: v0 :: rest =>
    let esDatoValor := (v0 :: rest).any containsNumberOrPrice
    if esDatoValor || (v0 :: rest).length == 1 then
      let par : ConceptValue :=
        { concept := concept
          value := if rest.isEmpty then .single v0 else .multiple (v0 :: rest)
          -- values[1:] if len(values) > 1 else []; both branches equal `rest`
          additional_values := rest }
      match acc.current with
      | some s =>
        { acc with
          current := some ⟨s.section_name, s.data ++ [par]⟩
          total_concepts := acc.total_concepts + 1 }
      | none =>
        { acc with
          direct_data := acc.direct_data ++ [par]
          total_concepts := acc.total_concepts + 1 }
    else
      let sectionName := String.intercalate " - " (concept :: v0 :: rest)
      { acc with
        sections := closeSection acc.sections acc.current
        current := some ⟨sectionName, []⟩ }

/-- `utils.parse_table_structure`. -/
def parse_table_structure (table : List (List (Option String))) : ParsedTable :=
  if table.isEmpty then
    { type := "empty", sections := [], direct_data := [], total_rows := 0, total_concepts := 0 }
  else
    let acc := table.foldl parseRow { sections := [], direct_data := [], current := none, total_concepts := 0 }
    let sections := closeSection acc.sections acc.current
    { type := if sections.isEmpty then "simple" else "with_sections"
      sections := sections
      direct_data := acc.direct_data
      total_rows := table.length
      total_concepts := acc.total_concepts }

/-! ### Tariff data model and the scrape-equality canonical form

`monitorear_tarifas_vigentes` compares scrapes with
`str(sorted([(e["empresa"], sorted(str(t) for t in e["tarifas"])) for e in empresas]))`.
Each `t` is a dict built (in `extract_tariff_table_data`) as
`{'localidad': ..., 'url_pdf': ...}` in that fixed key order, so `str(t)` is
`"{'localidad': " + repr(localidad) + ", 'url_pdf': " + repr(url_pdf) + "}"`.
`repr` of a Python `str` is modelled with a fixed single-quote delimiter and
backslash escaping of `\` and `'`; this agrees with CPython on quote-free
strings and, like CPython's `repr`, is injective, which is the only property
the comparison depends on.  The outer `str(sorted(...))` applied to the two
canonical values is injective as well (same argument), so string equality of
the serialized forms is modelled as equality of the canonical structures.
Sorting uses Mathlib's lexicographic linear orders; equality of the two
sorted forms does not depend on which linear order is fixed. -/

/-- One row of the tariff table: locality name and tariff-PDF URL. -/
structure Tarifa where
  localidad : String
  url_pdf : String
deriving DecidableEq, Repr

/-- One company record scraped from the tariff page. -/
structure Empresa where
  empresa : String
  tarifas : List Tarifa
deriving DecidableEq, Repr

/-- Backslash-escaping of the quote and backslash characters, as in a Python
single-quoted `repr`. -/
def escChars : List Char → List Char
  | [] => []
  | c :: cs => if c == '\\' || c == '\x27' then '\\' :: c :: escChars cs else c :: escChars cs

/-- The characters of `"(\x7b)'localidad': "` (opening brace, quoted key,
colon, space) that start `str(t)`. -/
def tarifaStrHead : List Char :=
  ['\x7b', '\x27', 'l', 'o', 'c', 'a', 'l', 'i', 'd', 'a', 'd', '\x27', ':', ' ']

/-- The characters of `", 'url_pdf': "` between the two values of `str(t)`. -/
def tarifaStrMid : List Char :=
  [',', ' ', '\x27', 'u', 'r', 'l', '_', 'p', 'd', 'f', '\x27', ':', ' ']

/-- `str(t)` for a tariff dict `t`, at the character-list level. -/
def tarifaStrChars (l u : List Char) : List Char :=
  tarifaStrHead ++ '\x27' :: (escChars l ++ '\x27' :: (tarifaStrMid ++ '\x27' :: (escChars u ++ '\x27' :: ['\x7d'])))

/-- `str(t)` for a tariff dict. -/
def strTarifa (t : Tarifa) : String :=
  ⟨tarifaStrChars t.localidad.data t.url_pdf.data⟩

/-- `sorted(...)` over strings. -/
def sortedStrings (l : List String) : List String :=
  List.insertionSort (· ≤ ·) l

/-- The comparable form of one company record:
`(e["empresa"], sorted(str(t) for t in e["tarifas"]))`.  The Python tuple
`(name, strs)` is embedded as the list `name :: strs`; tuple comparison is
exactly the lexicographic list order, and the embedding is injective. -/
def empresaKey (e : Empresa) : List String :=
  e.empresa :: sortedStrings (e.tarifas.map strTarifa)

/-- `sorted([... for e in empresas])`: the canonical form both scrapes are
reduced to before comparison. -/
def canonicalEmpresas (es : List Empresa) : List (List String) :=
  List.insertionSort (· ≤ ·) (es.map empresaKey)

/-! ### Change-detection/persistence stages (`core.verificar_siss`,
`core.monitorear_tarifas_vigentes`)

Each stage is a function of its externally obtained inputs (redirect result,
scraped data), the prior content of its JSON state file, and the timestamp,
returning the Python result dict and the new file state.  Result dicts whose
keys differ between the success and failure branches are modelled with
`Option` fields: `none` means the key is absent from the returned dict. -/

/-- One entry of the `historial` list of `siss_url.json`: the snapshot of the
previous payload taken at `core.py` lines 252-258. -/
structure SissHistEntry where
  url_final : String
  url_tarifas_vigentes : Option String
  timestamp : String
deriving DecidableEq, Repr

/-- The content of `siss_url.json` as written at `core.py` lines 260-268. -/
structure SissData where
  url_original : String
  url_final : String
  url_tarifas_vigentes : Option String
  timestamp : String
  verificado : Bool
  historial : List SissHistEntry
deriving DecidableEq, Repr

/-- The dict returned by `verificar_siss`; `none` fields are keys absent in
the branch taken. -/
structure SissResult where
  success : Bool
  url_original : String
  url_final : Option String
  url_tarifas_vigentes : Option String
  timestamp : String
  error : Option String
  archivo : Option String
  guardado : Option Bool
  is_first_time : Option Bool
  cambio_url_final : Option Bool
  cambio_url_tarifas : Option Bool
  message : Option String
deriving DecidableEq, Repr

/-- The hard-coded entry URL of the stage. -/
def urlSiss : String := "https://www.siss.gob.cl"

/-- `core.verificar_siss`.  `url_final_res` is the outcome of
`verificar_redireccion_url` (the network redirect check), `url_tarifas_res`
the outcome of `extraer_url_por_texto` (link search on the landing page),
`datos_previos` the loaded prior state file, `ts` the formatted timestamp. -/
def verificar_siss (url_final_res : Option String) (url_tarifas_res : Option String)
    (datos_previos : Option SissData) (ts : String) (ruta_salida : String) :
    SissResult × Option SissData :=
  match url_final_res with
  | none =>
    ({ success := false, url_original := urlSiss, url_final := none,
       url_tarifas_vigentes := none, timestamp := ts,
       error := some "No se pudo obtener la URL de redirección",
       archivo := none, guardado := none, is_first_time := none,
       cambio_url_final := none, cambio_url_tarifas := none, message := none },
     datos_previos)
  | some url_final =>
    let is_first_time := datos_previos.isNone
    let url_final_cambio :=
      match datos_previos with
      | some d => decide (d.url_final ≠ url_final)
      | none => false
    let url_tarifas_cambio :=
      match datos_previos with
      | some d => decide (d.url_tarifas_vigentes ≠ url_tarifas_res)
      | none => false
    let hay_cambios := is_first_time || url_final_cambio || url_tarifas_cambio
    let mensaje :=
      if is_first_time then "Primera verificación guardada"
      else if hay_cambios then "Cambios detectados y guardados"
      else "Sin cambios, no se guardó"
    if hay_cambios then
      let historial :=
        match datos_previos with
        | some d => d.historial ++ [⟨d.url_final, d.url_tarifas_vigentes, d.timestamp⟩]
        | none => []
      let datos : SissData :=
        { url_original := urlSiss, url_final := url_final,
          url_tarifas_vigentes := url_tarifas_res, timestamp := ts,
          verificado := true, historial := historial }
      ({ success := true, url_original := urlSiss, url_final := some url_final,
         url_tarifas_vigentes := url_tarifas_res, timestamp := ts, error := none,
         archivo := some ruta_salida, guardado := some true,
         is_first_time := some is_first_time,
         cambio_url_final := some url_final_cambio,
         cambio_url_tarifas := some url_tarifas_cambio,
         message := some mensaje },
       some datos)
    else
      ({ success := true, url_original := urlSiss, url_final := some url_final,
         url_tarifas_vigentes := url_tarifas_res, timestamp := ts, error := none,
         archivo := some ruta_salida, guardado := some false,
         is_first_time := some is_first_time,
         cambio_url_final := some url_final_cambio,
         cambio_url_tarifas := some url_tarifas_cambio,
         message := some mensaje },
       datos_previos)

/-- One entry of the `historial` list of `tarifas_empresas.json`: the snapshot
of the previous payload taken at `core.py` lines 400-406. -/
structure TarifasHistEntry where
  empresas : List Empresa
  timestamp : String
  total_companies : Nat
deriving DecidableEq, Repr

/-- The content of `tarifas_empresas.json` as written at `core.py`
lines 408-416. -/
structure TarifasData where
  url_tarifas : String
  empresas : List Empresa
  total_companies : Nat
  timestamp : String
  verificado : Bool
  historial : List TarifasHistEntry
deriving DecidableEq, Repr

/-- The dict returned by `monitorear_tarifas_vigentes`; `none` fields are
keys absent in the branch taken. -/
structure TarifasResult where
  success : Bool
  url_tarifas : Option String
  empresas : List Empresa
  total_companies : Option Nat
  timestamp : String
  error : Option String
  archivo : Option String
  guardado : Option Bool
  is_first_time : Option Bool
  cambios_detectados : Option Bool
  message : Option String
deriving DecidableEq, Repr

/-- `core.monitorear_tarifas_vigentes`, for a provided (non-`None`)
`url_tarifas`.  `empresas` is the outcome of `extraer_empresas_agua`
(the scrape, `[]` on any failure), `datos_previos` the loaded prior state
file, `ts` the formatted timestamp. -/
def monitorear_tarifas_vigentes (url_tarifas : String) (empresas : List Empresa)
    (datos_previos : Option TarifasData) (ts : String) (ruta_salida : String) :
    TarifasResult × Option TarifasData :=
  if empresas.isEmpty then
    ({ success := false, url_tarifas := some url_tarifas, empresas := [],
       total_companies := none, timestamp := ts,
       error := some "No se pudieron extraer datos de empresas",
       archivo := none, guardado := none, is_first_time := none,
       cambios_detectados := none, message := none },
     datos_previos)
  else
    let is_first_time := datos_previos.isNone
    let cambios_detectados :=
      match datos_previos with
      | some d => decide (canonicalEmpresas empresas ≠ canonicalEmpresas d.empresas)
      | none => false
    let hay_cambios := is_first_time || cambios_detectados
    let mensaje :=
      if is_first_time then "Primera verificación guardada"
      else if cambios_detectados then "Cambios detectados y guardados"
      else "Sin cambios, no se guardó"
    let guardado : Bool := hay_cambios
    let nuevo_estado : Option TarifasData :=
      if hay_cambios then
        let historial :=
          match datos_previos with
          | some d => d.historial ++ [⟨d.empresas, d.timestamp, d.total_companies⟩]
          | none => []
        some { url_tarifas := url_tarifas, empresas := empresas,
               total_companies := empresas.length, timestamp := ts,
               verificado := true, historial := historial }
      else datos_previos
    ({ success := true, url_tarifas := some url_tarifas, empresas := empresas,
       total_companies := some empresas.length, timestamp := ts, error := none,
       archivo := some ruta_salida, guardado := some guardado,
       is_first_time := some is_first_time,
       cambios_detectados := some cambios_detectados,
       message := some mensaje },
     nuevo_estado)

/-! ### Append-only accumulation stages (`core.descargar_pdfs`,
`core.analyze_pdfs` via `utils.get_new_pdfs`) -/

/-- The candidate work items of `descargar_pdfs`: every
(empresa, localidad, url_pdf) referenced by the tariff JSON, in iteration
order (`core.py` lines 507-515). -/
def candidatosDescarga (empresas : List Empresa) : List (String × String × String) :=
  empresas.flatMap (fun e => e.tarifas.map (fun t => (e.empresa, t.localidad, t.url_pdf)))

/-- The items `descargar_pdfs` actually attempts to download: the candidate
list minus the ones whose URL identity is already in the seen-set
`pdfs_previos` (`core.py` lines 517-519; on a first-time run nothing is
skipped). -/
def pdfsADescargar (empresas : List Empresa) (is_first_time : Bool)
    (pdfs_previos : List String) : List (String × String × String) :=
  (candidatosDescarga empresas).filter
    (fun c => is_first_time || !(pdfs_previos.contains c.2.2))

/-- A registry entry of `registro_analisis.json["analyzed_pdfs"]`, modelled as
the key/value pairs of the JSON object (values reduced to their string
content; only the keys matter for identity lookups).  The full dict written
by `analyze_pdfs` (`core.py` lines 716-733) has the keys `ruta_pdf`,
`filename`, `folder`, `size_kb`, `total_paginas`, `total_tablas`,
`total_concepts`, `total_sections`, `longitud_texto`, `texto_extraido`,
`full_text_available`, `extracted_tables`, `tablas`, `metodo_extraccion`,
`used_ocr`, `timestamp` — and in particular no key named `pdf_path`. -/
def analyzedPdfEntry (path filename folder : String) : List (String × String) :=
  [("ruta_pdf", path), ("filename", filename), ("folder", folder)]

/-- Python `dict.get(key)`: first matching key or `None`. -/
def dictGet (entry : List (String × String)) (k : String) : Option String :=
  (entry.find? (fun p => p.1 = k)).map (·.2)

/-- The loaded analysis registry as far as `get_new_pdfs` reads it: its
`analyzed_pdfs` list (`registry.get("analyzed_pdfs", [])`). -/
structure AnalysisRegistryFile where
  analyzed_pdfs : List (List (String × String))
deriving DecidableEq, Repr

/-- `utils.get_new_pdfs`.  `all_pdfs` is the disk scan
(`get_pdfs_in_folder`, external), `registry` the loaded registry file.  The
seen-set is built from `pdf_info.get("pdf_path")` of each registry entry, and
a PDF is kept iff its path is not in that set. -/
def get_new_pdfs (all_pdfs : List String) (registry : Option AnalysisRegistryFile) :
    List String :=
  match registry with
  | none => all_pdfs
  | some reg =>
    let analyzed : List (Option String) := reg.analyzed_pdfs.map (fun e => dictGet e "pdf_path")
    all_pdfs.filter (fun p => !(analyzed.contains (some p)))

/-! ### Hierarchical aggregator (`utils.organize_hierarchical_analysis`)

Python dicts keyed by company / locality are modelled as finite maps
`String → Option _`; none of the aggregation claims depend on dict iteration
order.  Numeric JSON payload values are modelled as `Nat` (they are copied
through untouched, so their exact numeric type is irrelevant), and the opaque
`tables` payload as a list of strings. -/

/-- An input record of the flat `analyzed_pdfs` list, as far as the
aggregator reads it (`pdf_data.get(...)` — every field it may read is
optional, with the defaults applied at the read site). -/
structure AnalyzedPdf where
  folder : Option String
  filename : Option String
  pdf_path : Option String
  size_kb : Option Nat
  total_pages : Option Nat
  total_tables : Option Nat
  total_concepts : Option Nat
  total_sections : Option Nat
  text_length : Option Nat
  extraction_method : Option String
  used_ocr : Option Bool
  timestamp : Option String
  extracted_text : Option String
  tables : Option (List String)
deriving DecidableEq, Repr

/-- The per-PDF entry appended to a locality's `pdfs` list
(`utils.py` lines 906-922). -/
structure PdfAnalysisEntry where
  pdf_file : String
  full_path : String
  size_kb : Nat
  total_pages : Nat
  total_tables : Nat
  total_concepts : Nat
  total_sections : Nat
  text_length : Nat
  extraction_method : String
  used_ocr : Bool
  timestamp : String
  extracted_text : String
  tables : List String
deriving DecidableEq, Repr

/-- A locality entry of the hierarchical structure. -/
structure LocalityEntry where
  locality_name : String
  normalized_name : String
  pdfs : List PdfAnalysisEntry
deriving Repr

/-- A company entry of the hierarchical structure. -/
structure CompanyEntry where
  company_name : String
  normalized_name : String
  localities : String → Option LocalityEntry
  total_localities : Nat
  total_pdfs : Nat

/-- The hierarchical structure plus its `resumen` counters. -/
structure HierStructure where
  companies : String → Option CompanyEntry
  total_companies : Nat
  total_localities : Nat
  total_pdfs : Nat

/-- Point update of a finite map. -/
def updateFun {β : Type} (m : String → Option β) (k : String) (v : Option β) :
    String → Option β :=
  fun x => if x = k then v else m x

/-- `pdf_data.get("folder", "Sin_Empresa")`. -/
def companyKeyOf (r : AnalyzedPdf) : String :=
  r.folder.getD "Sin_Empresa"

/-- Locality key: file name with every `.pdf` and `.PDF` occurrence removed
(Python `str.replace` replaces all occurrences). -/
def localityKeyOf (r : AnalyzedPdf) : String :=
  ((r.filename.getD "").replace ".pdf" "").replace ".PDF" ""

/-- The entry appended for one record (`utils.py` lines 906-922), reading the
record's fields with the source's `get` defaults. -/
def toStoredPdf (r : AnalyzedPdf) : PdfAnalysisEntry :=
  { pdf_file := r.filename.getD ""
    full_path := r.pdf_path.getD ""
    size_kb := r.size_kb.getD 0
    total_pages := r.total_pages.getD 0
    total_tables := r.total_tables.getD 0
    total_concepts := r.total_concepts.getD 0
    total_sections := r.total_sections.getD 0
    text_length := r.text_length.getD 0
    extraction_method := r.extraction_method.getD ""
    used_ocr := r.used_ocr.getD false
    timestamp := r.timestamp.getD ""
    extracted_text := r.extracted_text.getD ""
    tables := r.tables.getD [] }

/-- A fresh company entry (`utils.py` lines 880-891). -/
def mkCompany (company : String) : CompanyEntry :=
  { company_name := company.replace "_" " "
    normalized_name := company
    localities := fun _ => none
    total_localities := 0
    total_pdfs := 0 }

/-- A fresh locality entry (`utils.py` lines 894-903). -/
def mkLocality (loc : String) : LocalityEntry :=
  { locality_name := loc.replace "_" " "
    normalized_name := loc
    pdfs := [] }

/-- One iteration of the aggregation loop: lazily create the company and
locality entries, append the record's analysis entry, bump the counters. -/
def orgStep (st : HierStructure) (r : AnalyzedPdf) : HierStructure :=
  let company := companyKeyOf r
  let locality := localityKeyOf r
  let entry := toStoredPdf r
  let stA :=
    match st.companies company with
    | some _ => st
    | none =>
      { st with
        companies := updateFun st.companies company (some (mkCompany company))
        total_companies := st.total_companies + 1 }
  let stB :=
    match stA.companies company with
    | none => stA
    | some ce =>
      match ce.localities locality with
      | some _ => stA
      | none =>
        { stA with
          companies := updateFun stA.companies company
            (some { ce with
                    localities := updateFun ce.localities locality (some (mkLocality locality))
                    total_localities := ce.total_localities + 1 })
          total_localities := stA.total_localities + 1 }
  match stB.companies company with
  | none => stB
  | some ce =>
    match ce.localities locality with
    | none => stB
    | some le =>
      { stB with
        companies := updateFun stB.companies company
          (some { ce with
                  localities := updateFun ce.localities locality
                    (some { le with pdfs := le.pdfs ++ [entry] })
                  total_pdfs := ce.total_pdfs + 1 })
        total_pdfs := stB.total_pdfs + 1 }

/-- `utils.organize_hierarchical_analysis`: fold the step over the full flat
record list, starting from the empty structure. -/
def organize_hierarchical_analysis (l : List AnalyzedPdf) : HierStructure :=
  l.foldl orgStep
    { companies := fun _ => none, total_companies := 0, total_localities := 0, total_pdfs := 0 }

/-- The `pdfs` list stored for a (company, locality) pair, `[]` when the pair
has no entry. -/
def pdfsAt (st : HierStructure) (c loc : String) : List PdfAnalysisEntry :=
  match st.companies c with
  | none => []
  | some ce =>
    match ce.localities loc with
    | none => []
    | some le => le.pdfs

/-! ### Analysis stage (`core.analyze_pdfs`)

The candidate list (disk scan filtered by `get_new_pdfs` when `only_new`) is
passed in, and per-PDF extraction (`extract_pdf_tables` / the OCR fallback)
is an oracle `analyzeOne` returning the produced record on success and `none`
on failure.  Only the structure of the method — the empty-candidate early
return, first-time detection, accumulation and registry write — is needed by
the claims. -/

/-- One entry of the `analysis_history` audit list. -/
structure AnalysisRunEntry where
  timestamp : String
  analyzed : Nat
  failed : Nat
  is_first_time : Bool
  used_ocr : Bool
  extract_tables : Bool
deriving DecidableEq, Repr

/-- The content of `registro_analisis.json` as written at `core.py`
lines 799-827. -/
structure AnalysisRegistry where
  ultima_actualizacion : String
  total_analyzed_pdfs : Nat
  hierarchical_structure : HierStructure
  analysis_history : List AnalysisRunEntry
  analyzed_pdfs : List AnalyzedPdf

/-- The dict returned by `analyze_pdfs` (fields common to both branches). -/
structure AnalyzeResult where
  success : Bool
  total_pdfs : Nat
  analyzed : Nat
  failed : Nat
  is_first_time : Bool
  analyzed_pdfs : List AnalyzedPdf
  failed_pdfs : List String
  message : String

/-- `core.analyze_pdfs`: result dict and new registry-file state. -/
def analyze_pdfs (pdfs_to_analyze : List String) (registro_previo : Option AnalysisRegistry)
    (analyzeOne : String → Option AnalyzedPdf) (ts : String)
    (use_ocr extract_tables : Bool) : AnalyzeResult × Option AnalysisRegistry :=
  if pdfs_to_analyze.isEmpty then
    ({ success := true, total_pdfs := 0, analyzed := 0, failed := 0,
       is_first_time := false, analyzed_pdfs := [], failed_pdfs := [],
       message := "No hay PDFs para analizar" },
     registro_previo)
  else
    let is_first_time := registro_previo.isNone
    let analyzed := pdfs_to_analyze.filterMap analyzeOne
    let failed := pdfs_to_analyze.filter (fun p => (analyzeOne p).isNone)
    let total :=
      (match registro_previo with | some r => r.analyzed_pdfs | none => []) ++ analyzed
    let hier := organize_hierarchical_analysis total
    let historia :=
      (match registro_previo with | some r => r.analysis_history | none => []) ++
        [⟨ts, analyzed.length, failed.length, is_first_time, use_ocr, extract_tables⟩]
    ({ success := true, total_pdfs := pdfs_to_analyze.length,
       analyzed := analyzed.length, failed := failed.length,
       is_first_time := is_first_time, analyzed_pdfs := analyzed,
       failed_pdfs := failed,
       message := if is_first_time then "Primer análisis" else "Analizados PDFs nuevos" },
     some { ultima_actualizacion := ts, total_analyzed_pdfs := total.length,
            hierarchical_structure := hier, analysis_history := historia,
            analyzed_pdfs := total })

/-! ### Derived notions used by the statements -/

/-- Total concepts stored across a list of sections. -/
def sectionsConcepts (ss : List TableSection) : Nat :=
  (ss.map (fun s => s.data.length)).sum

/-- Concepts stored in the currently open section, if any. -/
def currentConcepts : Option TableSection → Nat
  | none => 0
  | some s => s.data.length

/-- Two company records carry the same payload up to ordering: same name,
tariff lists that are permutations of each other. -/
def empresaEquiv (a b : Empresa) : Prop :=
  a.empresa = b.empresa ∧ a.tarifas.Perm b.tarifas

/-- The multiset of (company, locality, PDF-URL) tuples of a scrape. -/
def flatTriples (es : List Empresa) : Multiset (String × String × String) :=
  (candidatosDescarga es : List (String × String × String))

/-- The (company, tariff-string) pairs encoded in one company key. -/
def pairsOfKey : List String → Multiset (String × String)
  | [] => 0
  | n :: ts => (ts.map (fun s => (n, s)) : List (String × String))

/-- The multiset of (company, `str(t)`) pairs recoverable from the canonical
comparable form. -/
def flatPairs (es : List Empresa) : Multiset (String × String) :=
  ((es.map empresaKey : List (List String)) : Multiset (List String)).bind pairsOfKey

/-! ### Concrete inputs used by the witnesses -/

/-- Example tariff row. -/
def tarifaEx1 : Tarifa := ⟨"Santiago", "https://www.siss.gob.cl/t/santiago.pdf"⟩

/-- Example tariff row. -/
def tarifaEx2 : Tarifa := ⟨"Maipu", "https://www.siss.gob.cl/t/maipu.pdf"⟩

/-- Example tariff row. -/
def tarifaEx3 : Tarifa := ⟨"Concepcion", "https://www.siss.gob.cl/t/concepcion.pdf"⟩

/-- Example company record. -/
def empresaEx1 : Empresa := ⟨"Aguas Andinas", [tarifaEx1, tarifaEx2]⟩

/-- `empresaEx1` with its tariff list reversed. -/
def empresaEx1p : Empresa := ⟨"Aguas Andinas", [tarifaEx2, tarifaEx1]⟩

/-- Example company record. -/
def empresaEx2 : Empresa := ⟨"Essbio", [tarifaEx3]⟩

/-- Example prior content of `tarifas_empresas.json`. -/
def tarifasDataEx : TarifasData :=
  { url_tarifas := "https://www.siss.gob.cl/586/w3-propertyvalue-6415.html"
    empresas := [empresaEx1, empresaEx2]
    total_companies := 2
    timestamp := "2026-01-01T00:00:00"
    verificado := true
    historial := [] }

/-- Example prior content of `siss_url.json`. -/
def sissDataEx : SissData :=
  { url_original := "https://www.siss.gob.cl"
    url_final := "https://www.siss.gob.cl/586/w3-channel.html"
    url_tarifas_vigentes := some "https://www.siss.gob.cl/586/w3-propertyvalue-6415.html"
    timestamp := "2026-01-01T00:00:00"
    verificado := true
    historial := [] }

/-- Example analysis record. -/
def pdfRecEx1 : AnalyzedPdf :=
  { folder := some "Aguas_Andinas", filename := some "Santiago.pdf"
    pdf_path := some "data/pdfs/Aguas_Andinas/Santiago.pdf"
    size_kb := some 120, total_pages := some 3, total_tables := some 2
    total_concepts := some 5, total_sections := some 2, text_length := some 900
    extraction_method := some "pdfplumber (con detección de tablas y estructura)"
    used_ocr := some false, timestamp := some "2026-01-01T00:00:00"
    extracted_text := some "texto", tables := some [] }

/-- Example analysis record for a second company. -/
def pdfRecEx2 : AnalyzedPdf :=
  { folder := some "Essbio", filename := some "Concepcion.pdf"
    pdf_path := some "data/pdfs/Essbio/Concepcion.pdf"
    size_kb := some 80, total_pages := some 2, total_tables := some 1
    total_concepts := some 3, total_sections := some 1, text_length := some 500
    extraction_method := some "pdfplumber (con detección de tablas y estructura)"
    used_ocr := some false, timestamp := some "2026-01-01T00:00:00"
    extracted_text := some "texto", tables := some [] }

/-! ## Theorems -/

theorem closeSection_concepts (ss : List TableSection) (cur : Option TableSection) :
    sectionsConcepts (closeSection ss cur) = sectionsConcepts ss + currentConcepts cur := by
  cases cur <;> simp [closeSection, sectionsConcepts, currentConcepts]

theorem parseRow_concepts (acc : ParseAcc) (row : List (Option String))
    (h : acc.total_concepts =
      acc.direct_data.length + sectionsConcepts acc.sections + currentConcepts acc.current) :
    (parseRow acc row).total_concepts =
      (parseRow acc row).direct_data.length + sectionsConcepts (parseRow acc row).sections +
        currentConcepts (parseRow acc row).current := by
  unfold parseRow
  rcases hne : (row.map cleanCell).filter (fun c => c ≠ "") with _ | ⟨a, _ | ⟨b, rest⟩⟩
  · simpa using h
  · simp [closeSection_concepts, currentConcepts, h, Nat.add_assoc]
  · simp only []
    split
    · rcases hcur : acc.current with _ | s
      · simp [hcur, currentConcepts, h, Nat.add_assoc, Nat.add_comm, Nat.add_left_comm]
      · simp [hcur, currentConcepts, h, Nat.add_assoc, Nat.add_comm, Nat.add_left_comm]
    · simp [closeSection_concepts, currentConcepts, h, Nat.add_assoc]

theorem foldl_parseRow_concepts (rows : List (List (Option String))) (acc : ParseAcc)
    (h : acc.total_concepts =
      acc.direct_data.length + sectionsConcepts acc.sections + currentConcepts acc.current) :
    (rows.foldl parseRow acc).total_concepts =
      (rows.foldl parseRow acc).direct_data.length +
        sectionsConcepts (rows.foldl parseRow acc).sections +
        currentConcepts (rows.foldl parseRow acc).current := by
  induction rows generalizing acc with
  | nil => simpa using h
  | cons r rs ih => exact ih (parseRow acc r) (parseRow_concepts acc r h)

/-- Claim C1: for every raw table, the structure returned by
`parse_table_structure` satisfies
`total_concepts == len(direct_data) + sum(len(section.data) for section in sections)`. -/
theorem claim_C1 (T : List (List (Option String))) :
    (parse_table_structure T).total_concepts =
      (parse_table_structure T).direct_data.length +
        ((parse_table_structure T).sections.map (fun s => s.data.length)).sum := by
  unfold parse_table_structure
  by_cases hT : T.isEmpty
  · simp [hT]
  · have h := foldl_parseRow_concepts T
      { sections := [], direct_data := [], current := none, total_concepts := 0 }
      (by simp [sectionsConcepts, currentConcepts])
    simp only [hT, if_false, Bool.false_eq_true]
    have hclose := closeSection_concepts
      (T.foldl parseRow { sections := [], direct_data := [], current := none, total_concepts := 0 }).sections
      (T.foldl parseRow { sections := [], direct_data := [], current := none, total_concepts := 0 }).current
    rw [h, Nat.add_assoc, ← hclose]
    rfl

/-- Claim C2 counterexample: a non-empty row list whose single row is blank
produces both lists empty but type `"simple"`, not `"empty"` as the claim
requires. -/
theorem claim_C2_counterexample :
    (parse_table_structure [[(none : Option String)]]).sections = [] ∧
    (parse_table_structure [[(none : Option String)]]).direct_data = [] ∧
    (parse_table_structure [[(none : Option String)]]).type = "simple" ∧
    (parse_table_structure [[(none : Option String)]]).type ≠ "empty" := by
  refine ⟨rfl, rfl, rfl, ?_⟩
  decide

/-- Claim C2, amended: the type field is `"with_sections"` when at least one
section was produced and `"simple"` otherwise — including when both lists are
empty; `"empty"` arises exactly for an empty input row list (and then both
lists are empty, `parse_table_structure [] = ⟨"empty", [], [], 0, 0⟩`). -/
theorem claim_C2 (T : List (List (Option String))) :
    (parse_table_structure T).type =
      (if T.isEmpty then "empty"
       else if (parse_table_structure T).sections.isEmpty then "simple"
       else "with_sections") := by
  by_cases hT : T.isEmpty <;> simp [parse_table_structure, hT]

theorem wsThenDigit_digit {l : List Char} (h : wsThenDigit l = true) : searchDigit l = true := by
  induction l with
  | nil => simp [wsThenDigit] at h
  | cons c cs ih =>
    rw [wsThenDigit] at h
    by_cases hd : c.isDigit
    · simp [searchDigit, hd]
    · rw [if_neg hd] at h
      by_cases hs : pyIsSpace c = true
      · rw [if_pos hs] at h
        have := ih h
        simp [searchDigit] at this ⊢
        exact Or.inr this
      · rw [if_neg hs] at h
        exact absurd h (by simp)

theorem searchDollarNum_digit {l : List Char} (h : searchDollarNum l = true) :
    searchDigit l = true := by
  induction l with
  | nil => simp [searchDollarNum] at h
  | cons c cs ih =>
    rw [searchDollarNum, Bool.or_eq_true, Bool.and_eq_true] at h
    rcases h with ⟨-, h⟩ | h
    · have := wsThenDigit_digit h
      simp [searchDigit] at this ⊢
      exact Or.inr this
    · have := ih h
      simp [searchDigit] at this ⊢
      exact Or.inr this

theorem searchThousands_digit {l : List Char} (h : searchThousands l = true) :
    searchDigit l = true := by
  induction l with
  | nil => simp [searchThousands] at h
  | cons c cs ih =>
    rw [searchThousands, Bool.or_eq_true, Bool.and_eq_true] at h
    rcases h with ⟨h, -⟩ | h
    · simp [searchDigit, h]
    · have := ih h
      simp [searchDigit] at this ⊢
      exact Or.inr this

theorem searchDecimal_digit {l : List Char} (h : searchDecimal l = true) :
    searchDigit l = true := by
  induction l with
  | nil => simp [searchDecimal] at h
  | cons c cs ih =>
    rw [searchDecimal, Bool.or_eq_true, Bool.and_eq_true] at h
    rcases h with ⟨h, -⟩ | h
    · simp [searchDigit, h]
    · have := ih h
      simp [searchDigit] at this ⊢
      exact Or.inr this

theorem searchPercent_digit {l : List Char} (h : searchPercent l = true) :
    searchDigit l = true := by
  induction l with
  | nil => simp [searchPercent] at h
  | cons c cs ih =>
    rw [searchPercent, Bool.or_eq_true, Bool.and_eq_true] at h
    rcases h with ⟨h, -⟩ | h
    · simp [searchDigit, h]
    · have := ih h
      simp [searchDigit] at this ⊢
      exact Or.inr this

theorem searchUnit_digit {l : List Char} (h : searchUnit l = true) :
    searchDigit l = true := by
  induction l with
  | nil => simp [searchUnit] at h
  | cons c cs ih =>
    rw [searchUnit, Bool.or_eq_true, Bool.and_eq_true] at h
    rcases h with ⟨h, -⟩ | h
    · simp [searchDigit, h]
    · have := ih h
      simp [searchDigit] at this ⊢
      exact Or.inr this

/-- Claim C3 counterexample: `"nota"` contains no digit (hence matches none
of the numeric shapes, each of which requires a digit) and is not a yes/no
token even case-insensitively, yet the classifier returns `True` — because
the `(SI|NO|si|no)` pattern is an unanchored `re.search`, and `"nota"`
contains `"no"` as a substring. -/
theorem claim_C3_counterexample :
    containsNumberOrPrice "nota" = true ∧
    searchDigit "nota".data = false ∧
    "nota".data.map Char.toLower ≠ "si".data ∧
    "nota".data.map Char.toLower ≠ "no".data := by
  refine ⟨rfl, rfl, ?_, ?_⟩ <;> decide

/-- Claim C3, amended: the classifier is total and pure (a Lean function),
but it returns `True` exactly when the string contains a decimal digit or
contains `"si"` or `"no"` as a case-insensitive substring — not only for the
listed shapes: every numeric pattern is subsumed by the bare-digit pattern
`\d+`, and the yes/no pattern is an unanchored substring search rather than a
token match. -/
theorem claim_C3 (s : String) :
    containsNumberOrPrice s = (searchDigit s.data || searchSiNo s.data) := by
  unfold containsNumberOrPrice
  cases h : searchDigit s.data
  · have h2 : searchDollarNum s.data = false := by
      cases hx : searchDollarNum s.data
      · rfl
      · exact absurd (searchDollarNum_digit hx) (by simp [h])
    have h3 : searchThousands s.data = false := by
      cases hx : searchThousands s.data
      · rfl
      · exact absurd (searchThousands_digit hx) (by simp [h])
    have h4 : searchDecimal s.data = false := by
      cases hx : searchDecimal s.data
      · rfl
      · exact absurd (searchDecimal_digit hx) (by simp [h])
    have h5 : searchPercent s.data = false := by
      cases hx : searchPercent s.data
      · rfl
      · exact absurd (searchPercent_digit hx) (by simp [h])
    have h6 : searchUnit s.data = false := by
      cases hx : searchUnit s.data
      · rfl
      · exact absurd (searchUnit_digit hx) (by simp [h])
    simp [h2, h3, h4, h5, h6]
  · simp

/-- Claim C4: in both persistence-protocol stages, a run whose computed
payload equals the stored one under the stage's equality (component-wise URL
equality for the SISS check, canonical-form equality for the tariff scrape)
reports `guardado = false` and leaves the state file untouched, so a repeat
run with an identical payload leaves the file byte-identical. -/
theorem claim_C4 :
    (∀ (d : SissData) (ts ruta : String),
      (verificar_siss (some d.url_final) d.url_tarifas_vigentes (some d) ts ruta).1.guardado =
        some false ∧
      (verificar_siss (some d.url_final) d.url_tarifas_vigentes (some d) ts ruta).2 = some d) ∧
    (∀ (url : String) (es : List Empresa) (d : TarifasData) (ts ruta : String),
      es ≠ [] → canonicalEmpresas es = canonicalEmpresas d.empresas →
      (monitorear_tarifas_vigentes url es (some d) ts ruta).1.guardado = some false ∧
      (monitorear_tarifas_vigentes url es (some d) ts ruta).2 = some d) := by
  constructor
  · intro d ts ruta
    constructor <;> simp [verificar_siss]
  · intro url es d ts ruta hne hcanon
    have hempty : es.isEmpty = false := by simpa [List.isEmpty_iff] using hne
    constructor <;> simp [monitorear_tarifas_vigentes, hempty, hcanon]

/-- Witness for C4 at concrete inputs: both stages re-run against their own
stored payload (the tariff scrape with its company list verbatim). -/
theorem claim_C4_witness :
    (verificar_siss (some sissDataEx.url_final) sissDataEx.url_tarifas_vigentes (some sissDataEx)
        "2026-01-02T00:00:00" "data/siss_url.json").1.guardado = some false ∧
    (verificar_siss (some sissDataEx.url_final) sissDataEx.url_tarifas_vigentes (some sissDataEx)
        "2026-01-02T00:00:00" "data/siss_url.json").2 = some sissDataEx ∧
    (monitorear_tarifas_vigentes tarifasDataEx.url_tarifas tarifasDataEx.empresas
        (some tarifasDataEx) "2026-01-02T00:00:00" "data/tarifas_empresas.json").1.guardado =
      some false ∧
    (monitorear_tarifas_vigentes tarifasDataEx.url_tarifas tarifasDataEx.empresas
        (some tarifasDataEx) "2026-01-02T00:00:00" "data/tarifas_empresas.json").2 =
      some tarifasDataEx := by
  obtain ⟨h1, h2⟩ := claim_C4.1 sissDataEx "2026-01-02T00:00:00" "data/siss_url.json"
  obtain ⟨h3, h4⟩ := claim_C4.2 tarifasDataEx.url_tarifas tarifasDataEx.empresas tarifasDataEx
    "2026-01-02T00:00:00" "data/tarifas_empresas.json" (by decide) rfl
  exact ⟨h1, h2, h3, h4⟩

/-- Claim C8: when payload computation fails — the SISS redirect check gets
no final URL, or the tariff page yields no extractable company data — the
stage returns a structured failure (`success=false` with an error reason),
the returned dict carries no `guardado` key, and the previously persisted
state file is left untouched. -/
theorem claim_C8 :
    (∀ (ut : Option String) (prior : Option SissData) (ts ruta : String),
      (verificar_siss none ut prior ts ruta).1.success = false ∧
      (verificar_siss none ut prior ts ruta).1.error =
        some "No se pudo obtener la URL de redirección" ∧
      (verificar_siss none ut prior ts ruta).1.guardado = none ∧
      (verificar_siss none ut prior ts ruta).2 = prior) ∧
    (∀ (url : String) (prior : Option TarifasData) (ts ruta : String),
      (monitorear_tarifas_vigentes url [] prior ts ruta).1.success = false ∧
      (monitorear_tarifas_vigentes url [] prior ts ruta).1.error =
        some "No se pudieron extraer datos de empresas" ∧
      (monitorear_tarifas_vigentes url [] prior ts ruta).1.guardado = none ∧
      (monitorear_tarifas_vigentes url [] prior ts ruta).2 = prior) := by
  constructor
  · intro ut prior ts ruta
    exact ⟨rfl, rfl, rfl, rfl⟩
  · intro url prior ts ruta
    exact ⟨rfl, rfl, rfl, rfl⟩

theorem insertionSortLe_eq_of_perm {α : Type} [LinearOrder α] {l₁ l₂ : List α}
    (h : l₁.Perm l₂) :
    List.insertionSort (· ≤ ·) l₁ = List.insertionSort (· ≤ ·) l₂ :=
  List.eq_of_perm_of_sorted
    ((List.perm_insertionSort _ _).trans (h.trans (List.perm_insertionSort _ _).symm))
    (List.sorted_insertionSort _ _) (List.sorted_insertionSort _ _)

theorem escChars_quote_split :
    ∀ (l₁ l₂ r₁ r₂ : List Char),
      escChars l₁ ++ '\x27' :: r₁ = escChars l₂ ++ '\x27' :: r₂ → l₁ = l₂ ∧ r₁ = r₂ := by
  intro l₁
  induction l₁ with
  | nil =>
    intro l₂ r₁ r₂ h
    cases l₂ with
    | nil =>
      simp only [escChars, List.nil_append] at h
      injection h with _ h
      exact ⟨rfl, h⟩
    | cons d t =>
      simp only [escChars, List.nil_append] at h
      by_cases hd : (d == '\\' || d == '\x27') = true
      · rw [if_pos hd] at h
        injection h with h1 _
        exact absurd h1 (by decide)
      · rw [if_neg hd] at h
        injection h with h1 _
        simp only [Bool.or_eq_true, beq_iff_eq, not_or] at hd
        exact absurd h1.symm hd.2
  | cons c t ih =>
    intro l₂ r₁ r₂ h
    by_cases hc : (c == '\\' || c == '\x27') = true
    · cases l₂ with
      | nil =>
        simp only [escChars, List.nil_append] at h
        rw [if_pos hc] at h
        injection h with h1 _
        exact absurd h1 (by decide)
      | cons d t₂ =>
        simp only [escChars] at h
        rw [if_pos hc] at h
        by_cases hd : (d == '\\' || d == '\x27') = true
        · rw [if_pos hd] at h
          simp only [List.cons_append, List.cons.injEq] at h
          obtain ⟨-, hcd, h⟩ := h
          obtain ⟨ht, hr⟩ := ih t₂ r₁ r₂ h
          exact ⟨by rw [hcd, ht], hr⟩
        · rw [if_neg hd] at h
          simp only [List.cons_append, List.cons.injEq] at h
          simp only [Bool.or_eq_true, beq_iff_eq, not_or] at hd
          exact absurd h.1.symm hd.1
    · cases l₂ with
      | nil =>
        simp only [escChars, List.nil_append] at h
        rw [if_neg hc] at h
        injection h with h1 _
        simp only [Bool.or_eq_true, beq_iff_eq, not_or] at hc
        exact absurd h1 hc.2
      | cons d t₂ =>
        simp only [escChars] at h
        rw [if_neg hc] at h
        by_cases hd : (d == '\\' || d == '\x27') = true
        · rw [if_pos hd] at h
          simp only [List.cons_append, List.cons.injEq] at h
          simp only [Bool.or_eq_true, beq_iff_eq, not_or] at hc
          exact absurd h.1 hc.1
        · rw [if_neg hd] at h
          simp only [List.cons_append, List.cons.injEq] at h
          obtain ⟨hcd, h⟩ := h
          obtain ⟨ht, hr⟩ := ih t₂ r₁ r₂ h
          exact ⟨by rw [hcd, ht], hr⟩

theorem strTarifa_injective : Function.Injective strTarifa := by
  intro t₁ t₂ h
  have hdata : tarifaStrChars t₁.localidad.data t₁.url_pdf.data =
      tarifaStrChars t₂.localidad.data t₂.url_pdf.data := congrArg String.data h
  simp only [tarifaStrChars, tarifaStrHead, tarifaStrMid, List.cons_append, List.nil_append,
    List.cons.injEq, true_and] at hdata
  obtain ⟨hl, hrest⟩ := escChars_quote_split _ _ _ _ hdata
  simp only [List.cons_append, List.cons.injEq, true_and] at hrest
  obtain ⟨hu, -⟩ := escChars_quote_split _ _ _ _ hrest
  cases t₁ with
  | mk a b =>
    cases t₂ with
    | mk c d =>
      have h1 : a = c := String.ext hl
      have h2 : b = d := String.ext hu
      rw [h1, h2]

theorem empresaKey_eq_of_equiv {a b : Empresa} (h : empresaEquiv a b) :
    empresaKey a = empresaKey b := by
  obtain ⟨hn, hp⟩ := h
  unfold empresaKey sortedStrings
  rw [hn, insertionSortLe_eq_of_perm (hp.map strTarifa)]

theorem canonical_eq_of_reorder {P mid C : List Empresa}
    (h1 : List.Forall₂ empresaEquiv P mid) (h2 : mid.Perm C) :
    canonicalEmpresas C = canonicalEmpresas P := by
  have hmapAll : ∀ {A B : List Empresa}, List.Forall₂ empresaEquiv A B →
      A.map empresaKey = B.map empresaKey := by
    intro A B hAB
    induction hAB with
    | nil => rfl
    | cons h _ ih => simp [empresaKey_eq_of_equiv h, ih]
  have hmap := hmapAll h1
  unfold canonicalEmpresas
  rw [hmap, insertionSortLe_eq_of_perm (h2.map empresaKey)]

theorem map_empresaKey_perm_of_canonical_eq {P C : List Empresa}
    (h : canonicalEmpresas C = canonicalEmpresas P) :
    (C.map empresaKey).Perm (P.map empresaKey) := by
  have hC := List.perm_insertionSort (fun a b : List String => a ≤ b) (C.map empresaKey)
  have hP := List.perm_insertionSort (fun a b : List String => a ≤ b) (P.map empresaKey)
  unfold canonicalEmpresas at h
  exact hC.symm.trans (h ▸ hP)

theorem pairsOfKey_empresaKey (e : Empresa) :
    pairsOfKey (empresaKey e) =
      ((e.tarifas.map (fun t => (e.empresa, strTarifa t)) : List (String × String)) :
        Multiset (String × String)) := by
  show ((((sortedStrings (e.tarifas.map strTarifa)).map fun s => (e.empresa, s)) :
      List (String × String)) : Multiset (String × String)) = _
  have hp : (sortedStrings (e.tarifas.map strTarifa)).Perm (e.tarifas.map strTarifa) :=
    List.perm_insertionSort _ _
  rw [Multiset.coe_eq_coe.mpr (hp.map (fun s => (e.empresa, s)))]
  rw [List.map_map]
  rfl

theorem flatPairs_cons (e : Empresa) (es : List Empresa) :
    flatPairs (e :: es) = pairsOfKey (empresaKey e) + flatPairs es := by
  show ((((e :: es).map empresaKey : List (List String)) : Multiset (List String)).bind
      pairsOfKey) = _
  rw [List.map_cons, ← Multiset.cons_coe, Multiset.cons_bind]
  rfl

theorem flatPairs_eq_map_triples (es : List Empresa) :
    flatPairs es = (flatTriples es).map (fun x => (x.1, strTarifa ⟨x.2.1, x.2.2⟩)) := by
  induction es with
  | nil => rfl
  | cons e es ih =>
    rw [flatPairs_cons, pairsOfKey_empresaKey, ih]
    show _ = ((candidatosDescarga (e :: es) : List (String × String × String)) :
      Multiset (String × String × String)).map _
    rw [show candidatosDescarga (e :: es) =
        (e.tarifas.map (fun t => (e.empresa, t.localidad, t.url_pdf))) ++
          candidatosDescarga es from rfl]
    rw [← Multiset.coe_add, Multiset.map_add]
    congr 1
    rw [Multiset.map_coe, List.map_map]
    rfl

theorem flatTriples_eq_of_canonical_eq {P C : List Empresa}
    (h : canonicalEmpresas C = canonicalEmpresas P) :
    flatTriples C = flatTriples P := by
  have h1 : flatPairs C = flatPairs P := by
    show (((C.map empresaKey : List (List String)) : Multiset (List String)).bind pairsOfKey) =
      (((P.map empresaKey : List (List String)) : Multiset (List String)).bind pairsOfKey)
    rw [Multiset.coe_eq_coe.mpr (map_empresaKey_perm_of_canonical_eq h)]
  rw [flatPairs_eq_map_triples, flatPairs_eq_map_triples] at h1
  refine Multiset.map_injective ?_ h1
  intro x y hxy
  have hxy2 : (x.1, strTarifa ⟨x.2.1, x.2.2⟩) = (y.1, strTarifa ⟨y.2.1, y.2.2⟩) := hxy
  injection hxy2 with hx1 hsnd
  have hx2 : (⟨x.2.1, x.2.2⟩ : Tarifa) = ⟨y.2.1, y.2.2⟩ := strTarifa_injective hsnd
  have h21 : x.2.1 = y.2.1 := congrArg Tarifa.localidad hx2
  have h22 : x.2.2 = y.2.2 := congrArg Tarifa.url_pdf hx2
  exact Prod.ext hx1 (Prod.ext h21 h22)

/-- Claim C5: in both persistence-protocol stages, a non-first-time run whose
computed payload differs from the stored one reports `guardado = true` and
writes a state whose history is the previous history extended by exactly one
entry — a snapshot of the *previous* payload with the *previous* timestamp,
never the newly computed one — so its length is the previous length plus 1. -/
theorem claim_C5 :
    (∀ (d : SissData) (uf : String) (ut : Option String) (ts ruta : String),
      d.url_final ≠ uf ∨ d.url_tarifas_vigentes ≠ ut →
      (verificar_siss (some uf) ut (some d) ts ruta).1.guardado = some true ∧
      (verificar_siss (some uf) ut (some d) ts ruta).2 =
        some { url_original := urlSiss, url_final := uf, url_tarifas_vigentes := ut,
               timestamp := ts, verificado := true,
               historial :=
                 d.historial ++ [⟨d.url_final, d.url_tarifas_vigentes, d.timestamp⟩] } ∧
      (verificar_siss (some uf) ut (some d) ts ruta).2.map (fun nd => nd.historial.length) =
        some (d.historial.length + 1)) ∧
    (∀ (url : String) (es : List Empresa) (d : TarifasData) (ts ruta : String),
      es ≠ [] → canonicalEmpresas es ≠ canonicalEmpresas d.empresas →
      (monitorear_tarifas_vigentes url es (some d) ts ruta).1.guardado = some true ∧
      (monitorear_tarifas_vigentes url es (some d) ts ruta).2 =
        some { url_tarifas := url, empresas := es, total_companies := es.length,
               timestamp := ts, verificado := true,
               historial := d.historial ++ [⟨d.empresas, d.timestamp, d.total_companies⟩] } ∧
      (monitorear_tarifas_vigentes url es (some d) ts ruta).2.map
          (fun nd => nd.historial.length) =
        some (d.historial.length + 1)) := by
  constructor
  · intro d uf ut ts ruta h
    rcases h with h | h <;>
      refine ⟨?_, ?_, ?_⟩ <;> simp [verificar_siss, h]
  · intro url es d ts ruta hne h
    have hempty : es.isEmpty = false := by simpa [List.isEmpty_iff] using hne
    refine ⟨?_, ?_, ?_⟩ <;> simp [monitorear_tarifas_vigentes, hempty, h]

/-- Witness for C5: a changed final URL for the SISS stage, and a scrape
missing a company for the tariff stage (its canonical form differs because
its tuple multiset differs). -/
theorem claim_C5_witness :
    (verificar_siss (some "https://example.org/changed") sissDataEx.url_tarifas_vigentes
        (some sissDataEx) "2026-01-02T00:00:00" "data/siss_url.json").1.guardado = some true ∧
    (verificar_siss (some "https://example.org/changed") sissDataEx.url_tarifas_vigentes
        (some sissDataEx) "2026-01-02T00:00:00" "data/siss_url.json").2.map
        (fun nd => nd.historial.length) = some (sissDataEx.historial.length + 1) ∧
    (monitorear_tarifas_vigentes tarifasDataEx.url_tarifas [empresaEx2] (some tarifasDataEx)
        "2026-01-02T00:00:00" "data/tarifas_empresas.json").1.guardado = some true ∧
    (monitorear_tarifas_vigentes tarifasDataEx.url_tarifas [empresaEx2] (some tarifasDataEx)
        "2026-01-02T00:00:00" "data/tarifas_empresas.json").2.map
        (fun nd => nd.historial.length) = some (tarifasDataEx.historial.length + 1) := by
  obtain ⟨h1, -, h2⟩ := claim_C5.1 sissDataEx "https://example.org/changed"
    sissDataEx.url_tarifas_vigentes "2026-01-02T00:00:00" "data/siss_url.json"
    (Or.inl (by decide))
  obtain ⟨h3, -, h4⟩ := claim_C5.2 tarifasDataEx.url_tarifas [empresaEx2] tarifasDataEx
    "2026-01-02T00:00:00" "data/tarifas_empresas.json" (by decide)
    (fun heq => absurd (flatTriples_eq_of_canonical_eq heq) (by decide))
  exact ⟨h1, h2, h3, h4⟩

/-- Claim C6: tariff-scrape change detection is order-independent — when the
current company list is a permutation of the stored one with each company's
tariff list also arbitrarily permuted, `cambios_detectados = false` and
nothing is saved; and whenever the two scrapes differ in their multiset of
(company, locality, PDF-URL) tuples, the change is detected and saved. -/
theorem claim_C6 :
    (∀ (url : String) (mid C : List Empresa) (d : TarifasData) (ts ruta : String),
      List.Forall₂ empresaEquiv d.empresas mid → mid.Perm C → C ≠ [] →
      (monitorear_tarifas_vigentes url C (some d) ts ruta).1.cambios_detectados = some false ∧
      (monitorear_tarifas_vigentes url C (some d) ts ruta).1.guardado = some false ∧
      (monitorear_tarifas_vigentes url C (some d) ts ruta).2 = some d) ∧
    (∀ (url : String) (C : List Empresa) (d : TarifasData) (ts ruta : String),
      C ≠ [] → flatTriples C ≠ flatTriples d.empresas →
      (monitorear_tarifas_vigentes url C (some d) ts ruta).1.cambios_detectados = some true ∧
      (monitorear_tarifas_vigentes url C (some d) ts ruta).1.guardado = some true) := by
  constructor
  · intro url mid C d ts ruta h1 h2 hne
    have hcanon : canonicalEmpresas C = canonicalEmpresas d.empresas :=
      canonical_eq_of_reorder h1 h2
    have hempty : C.isEmpty = false := by simpa [List.isEmpty_iff] using hne
    refine ⟨?_, ?_, ?_⟩ <;> simp [monitorear_tarifas_vigentes, hempty, hcanon]
  · intro url C d ts ruta hne h
    have hcanon : canonicalEmpresas C ≠ canonicalEmpresas d.empresas :=
      fun heq => h (flatTriples_eq_of_canonical_eq heq)
    have hempty : C.isEmpty = false := by simpa [List.isEmpty_iff] using hne
    constructor <;> simp [monitorear_tarifas_vigentes, hempty, hcanon]

/-- Witness for C6: the stored two-company list with the companies swapped
and one company's tariff rows swapped is reported unchanged; dropping a
company (a different tuple multiset) is reported changed. -/
theorem claim_C6_witness :
    (monitorear_tarifas_vigentes "u" [empresaEx2, empresaEx1p] (some tarifasDataEx)
        "2026-01-02T00:00:00" "f").1.cambios_detectados = some false ∧
    (monitorear_tarifas_vigentes "u" [empresaEx2, empresaEx1p] (some tarifasDataEx)
        "2026-01-02T00:00:00" "f").1.guardado = some false ∧
    (monitorear_tarifas_vigentes "u" [empresaEx2, empresaEx1p] (some tarifasDataEx)
        "2026-01-02T00:00:00" "f").2 = some tarifasDataEx ∧
    (monitorear_tarifas_vigentes "u" [empresaEx2] (some tarifasDataEx)
        "2026-01-02T00:00:00" "f").1.cambios_detectados = some true := by
  obtain ⟨h1, h2, h3⟩ := claim_C6.1 "u" [empresaEx1p, empresaEx2] [empresaEx2, empresaEx1p]
    tarifasDataEx "2026-01-02T00:00:00" "f"
    (List.Forall₂.cons ⟨rfl, by decide⟩ (List.Forall₂.cons ⟨rfl, by decide⟩ List.Forall₂.nil))
    (by decide) (by decide)
  obtain ⟨h4, -⟩ := claim_C6.2 "u" [empresaEx2] tarifasDataEx "2026-01-02T00:00:00" "f"
    (by decide) (by decide)
  exact ⟨h1, h2, h3, h4⟩

theorem mem_pdfsADescargar (empresas : List Empresa) (seen : List String)
    (c : String × String × String) :
    c ∈ pdfsADescargar empresas false seen ↔
      c ∈ candidatosDescarga empresas ∧ ¬ c.2.2 ∈ seen := by
  simp [pdfsADescargar, List.mem_filter]

/-- Claim C7 fails on the analysis stage: `get_new_pdfs` builds its seen-set
from `pdf_info.get("pdf_path")`, but `analyze_pdfs` records each processed
PDF under the key `ruta_pdf` (and writes no `pdf_path` key at all), so the
seen-set degenerates to `{None}` and a PDF whose identity is already in the
registry is re-offered instead of being skipped: here N = 1 candidate, M = 1
already registered, yet 1 item (not N − M = 0) is returned for processing.
(The download stage does skip seen URLs: see `mem_pdfsADescargar`.) -/
theorem claim_C7 :
    dictGet (analyzedPdfEntry "data/pdfs/Aguas_Andinas/Santiago.pdf" "Santiago.pdf"
        "Aguas_Andinas") "ruta_pdf" = some "data/pdfs/Aguas_Andinas/Santiago.pdf" ∧
    dictGet (analyzedPdfEntry "data/pdfs/Aguas_Andinas/Santiago.pdf" "Santiago.pdf"
        "Aguas_Andinas") "pdf_path" = none ∧
    get_new_pdfs ["data/pdfs/Aguas_Andinas/Santiago.pdf"]
        (some ⟨[analyzedPdfEntry "data/pdfs/Aguas_Andinas/Santiago.pdf" "Santiago.pdf"
          "Aguas_Andinas"]⟩) =
      ["data/pdfs/Aguas_Andinas/Santiago.pdf"] := by
  refine ⟨?_, ?_, ?_⟩ <;> decide

theorem orgStep_total_pdfs (st : HierStructure) (r : AnalyzedPdf) :
    (orgStep st r).total_pdfs = st.total_pdfs + 1 := by
  cases hA : st.companies (companyKeyOf r) with
  | none => simp [orgStep, hA, updateFun, mkCompany, mkLocality]
  | some ce =>
    cases hB : ce.localities (localityKeyOf r) with
    | none => simp [orgStep, hA, hB, updateFun, mkCompany, mkLocality]
    | some le => simp [orgStep, hA, hB, updateFun, mkCompany, mkLocality]

theorem pdfsAt_orgStep (st : HierStructure) (r : AnalyzedPdf) (c loc : String) :
    pdfsAt (orgStep st r) c loc =
      if companyKeyOf r = c ∧ localityKeyOf r = loc
      then pdfsAt st c loc ++ [toStoredPdf r]
      else pdfsAt st c loc := by
  by_cases hc : companyKeyOf r = c
  · by_cases hl : localityKeyOf r = loc
    · subst hc; subst hl
      rw [if_pos ⟨rfl, rfl⟩]
      cases hA : st.companies (companyKeyOf r) with
      | none => simp [orgStep, pdfsAt, hA, updateFun, mkCompany, mkLocality]
      | some ce =>
        cases hB : ce.localities (localityKeyOf r) with
        | none => simp [orgStep, pdfsAt, hA, hB, updateFun, mkCompany, mkLocality]
        | some le => simp [orgStep, pdfsAt, hA, hB, updateFun, mkCompany, mkLocality]
    · rw [if_neg (fun hand => hl hand.2)]
      subst hc
      have hl2 : ¬ (loc = localityKeyOf r) := fun h => hl h.symm
      cases hA : st.companies (companyKeyOf r) with
      | none =>
        simp [orgStep, pdfsAt, hA, updateFun, mkCompany, mkLocality, hl2]
      | some ce =>
        cases hB : ce.localities (localityKeyOf r) with
        | none => simp [orgStep, pdfsAt, hA, hB, updateFun, mkCompany, mkLocality, hl2]
        | some le => simp [orgStep, pdfsAt, hA, hB, updateFun, mkCompany, mkLocality, hl2]
  · rw [if_neg (fun hand => hc hand.1)]
    have hc2 : ¬ (c = companyKeyOf r) := fun h => hc h.symm
    cases hA : st.companies (companyKeyOf r) with
    | none =>
      simp [orgStep, pdfsAt, hA, updateFun, mkCompany, mkLocality, hc2]
    | some ce =>
      cases hB : ce.localities (localityKeyOf r) with
      | none => simp [orgStep, pdfsAt, hA, hB, updateFun, mkCompany, mkLocality, hc2]
      | some le => simp [orgStep, pdfsAt, hA, hB, updateFun, mkCompany, mkLocality, hc2]

theorem foldl_orgStep_total (l : List AnalyzedPdf) (st : HierStructure) :
    (l.foldl orgStep st).total_pdfs = st.total_pdfs + l.length := by
  induction l generalizing st with
  | nil => simp
  | cons r rs ih =>
    rw [List.foldl_cons, ih, orgStep_total_pdfs]
    simp only [List.length_cons]
    omega

theorem foldl_orgStep_pdfsAt (l : List AnalyzedPdf) (st : HierStructure) (c loc : String) :
    pdfsAt (l.foldl orgStep st) c loc =
      pdfsAt st c loc ++
        (l.filter (fun r => decide (companyKeyOf r = c ∧ localityKeyOf r = loc))).map
          toStoredPdf := by
  induction l generalizing st with
  | nil => simp
  | cons r rs ih =>
    rw [List.foldl_cons, ih, pdfsAt_orgStep, List.filter_cons]
    by_cases h : companyKeyOf r = c ∧ localityKeyOf r = loc
    · rw [if_pos h]
      simp [h]
    · rw [if_neg h]
      simp [h]

/-- Claim C9: the aggregator counts every input record (so
`summary.total_pdfs` equals the input length, for a list and any permutation
of it alike, not the number of unique files), and each (company, locality)
pair's `pdfs` list holds exactly the stored entries of that pair's input
records, in input order. -/
theorem claim_C9 (L Lp : List AnalyzedPdf) (hperm : L.Perm Lp) :
    (organize_hierarchical_analysis L).total_pdfs = L.length ∧
    (organize_hierarchical_analysis Lp).total_pdfs =
      (organize_hierarchical_analysis L).total_pdfs ∧
    ∀ c loc,
      pdfsAt (organize_hierarchical_analysis L) c loc =
        (L.filter (fun r => decide (companyKeyOf r = c ∧ localityKeyOf r = loc))).map
          toStoredPdf := by
  refine ⟨?_, ?_, ?_⟩
  · rw [organize_hierarchical_analysis, foldl_orgStep_total]
    simp
  · rw [organize_hierarchical_analysis, foldl_orgStep_total,
      organize_hierarchical_analysis, foldl_orgStep_total, hperm.length_eq]
  · intro c loc
    rw [organize_hierarchical_analysis, foldl_orgStep_pdfsAt]
    simp [pdfsAt]

/-- Witness for C9 at a concrete two-record list and its reversal. -/
theorem claim_C9_witness :
    (organize_hierarchical_analysis [pdfRecEx1, pdfRecEx2]).total_pdfs = 2 ∧
    (organize_hierarchical_analysis [pdfRecEx2, pdfRecEx1]).total_pdfs =
      (organize_hierarchical_analysis [pdfRecEx1, pdfRecEx2]).total_pdfs ∧
    pdfsAt (organize_hierarchical_analysis [pdfRecEx1, pdfRecEx2]) (companyKeyOf pdfRecEx1)
        (localityKeyOf pdfRecEx1) =
      ([pdfRecEx1, pdfRecEx2].filter
          (fun r => decide (companyKeyOf r = companyKeyOf pdfRecEx1 ∧
            localityKeyOf r = localityKeyOf pdfRecEx1))).map toStoredPdf := by
  obtain ⟨h1, h2, h3⟩ := claim_C9 [pdfRecEx1, pdfRecEx2] [pdfRecEx2, pdfRecEx1] (by decide)
  exact ⟨h1, h2, h3 (companyKeyOf pdfRecEx1) (localityKeyOf pdfRecEx1)⟩

/-- Claim C10: with an empty candidate set, `analyze_pdfs` returns
immediately with `success=true`, zero totals and `is_first_time=false` —
even when no registry file exists — and the registry file state is passed
through unchanged (neither created nor modified). -/
theorem claim_C10 (registro_previo : Option AnalysisRegistry)
    (analyzeOne : String → Option AnalyzedPdf) (ts : String) (use_ocr extract_tables : Bool) :
    (analyze_pdfs [] registro_previo analyzeOne ts use_ocr extract_tables).1.success = true ∧
    (analyze_pdfs [] registro_previo analyzeOne ts use_ocr extract_tables).1.total_pdfs = 0 ∧
    (analyze_pdfs [] registro_previo analyzeOne ts use_ocr extract_tables).1.analyzed = 0 ∧
    (analyze_pdfs [] registro_previo analyzeOne ts use_ocr extract_tables).1.failed = 0 ∧
    (analyze_pdfs [] registro_previo analyzeOne ts use_ocr extract_tables).1.is_first_time =
      false ∧
    (analyze_pdfs [] registro_previo analyzeOne ts use_ocr extract_tables).2 =
      registro_previo := by
  exact ⟨rfl, rfl, rfl, rfl, rfl, rfl⟩
